import Mathlib

/-!
Shallow embedding of the request rate-limiting and adaptive IP-blocking
engine of the Technobits library (Google-SignIn-SignUp backend):

* `authentication/models.py` — `BlockedIP` with its lazy-expiry
  `is_blocked` method;
* `authentication/middleware.py` — `RateLimitMiddleware._apply_block_rule`
  (rule escalation path);
* `authentication/rate_limiter.py` — `RedisRateLimiter` window checks,
  counter backends (Redis sorted sets and Django-cache fallback),
  recording, and retry-after computation;
* `authentication/utils.py` — `TwoFactorRateLimiter.is_rate_limited`.

Wall-clock times are embedded as integers (epoch seconds); Django model
rows become Lean structures; methods with database side effects become
explicit state-passing functions.
-/

namespace AuthRL

/-- Sliding-window horizons used by the rate limiter. -/
inductive Window
| minute
| hour
| day
deriving DecidableEq, Repr

/-- Window length in seconds (`60`, `3600`, `86400`), as in the
`time_windows` dicts of `_check_ip_rate_limit` / `_check_user_rate_limit`. -/
def Window.seconds : Window → Nat
| .minute => 60
| .hour => 3600
| .day => 86400

/-- Iteration order of the `time_windows` dict in the check helpers and of
the `time_windows` list in the record helpers: minute, hour, day. -/
def timeWindows : List Window := [Window.minute, Window.hour, Window.day]

/-- Key expiration that `_record_*_request_*` sets per window:
2 minutes, 2 hours, 2 days. -/
def Window.recordExpiry : Window → Nat
| .minute => 120
| .hour => 7200
| .day => 172800

/-! ## Block Registry: `IPBlockRule` and `BlockedIP` (models.py) -/

/-- Fields of `IPBlockRule` used by `_apply_block_rule`:
`max_attempts`, `block_duration` (seconds, `0` is falsy in Python),
`is_permanent_block`. -/
structure IPBlockRule where
  max_attempts : Nat
  block_duration : Nat
  is_permanent_block : Bool
deriving DecidableEq, Repr

/-- Fields of the `BlockedIP` model row that participate in
`is_blocked` and `_apply_block_rule`. `block_expires_at` is a nullable
datetime, embedded as `Option Int` (epoch seconds). -/
structure BlockedIP where
  reason : String
  block_expires_at : Option Int
  attempt_count : Nat
  last_attempt_at : Option Int
  is_permanent : Bool
  is_active : Bool
deriving DecidableEq, Repr

/-- `BlockedIP.is_blocked` (models.py lines 322-336): returns the boolean
result together with the (possibly mutated) record, since an expired
non-permanent record is flipped to `is_active = False` and saved.
`if self.block_expires_at and timezone.now() > self.block_expires_at`
is a truthiness test: `None` skips the branch. -/
def BlockedIP.is_blocked (b : BlockedIP) (now : Int) : Bool × BlockedIP :=
  if !b.is_active then (false, b)
  else if b.is_permanent then (true, b)
  else
    match b.block_expires_at with
    | some e => if e < now then (false, { b with is_active := false }) else (true, b)
    | none => (true, b)

/-- `RedisRateLimiter._is_ip_blocked` (rate_limiter.py lines 386-401):
looks up the `BlockedIP` row for the address filtered on
`is_active=True`; if present, delegates to `is_blocked()`, else `False`.
The state of the row after the call is returned alongside. -/
def is_ip_blocked (rec : Option BlockedIP) (now : Int) : Bool × Option BlockedIP :=
  match rec with
  | none => (false, none)
  | some b =>
      if b.is_active then
        let r := b.is_blocked now
        (r.1, some r.2)
      else (false, some b)

/-- `RateLimitMiddleware._apply_block_rule` (middleware.py lines 260-299):
`get_or_create` with defaults `{rule, reason, is_permanent, attempt_count: 0}`
— `is_active` is *not* among the defaults, so a created row takes the model
default `is_active=True`.  Then `attempt_count += 1`, `last_attempt_at = now`,
expiry is (re)set for non-permanent rules with truthy `block_duration`, and
`is_active = True` once `attempt_count >= rule.max_attempts`. -/
def apply_block_rule (existing : Option BlockedIP) (rule : IPBlockRule)
    (ruleName : String) (now : Int) : BlockedIP :=
  let b0 : BlockedIP :=
    match existing with
    | some b => b
    | none =>
        { reason := "Triggered rule: " ++ ruleName
          block_expires_at := none
          attempt_count := 0
          last_attempt_at := none
          is_permanent := rule.is_permanent_block
          is_active := true }
  let b1 := { b0 with attempt_count := b0.attempt_count + 1, last_attempt_at := some now }
  let b2 :=
    if !b1.is_permanent && decide (rule.block_duration ≠ 0) then
      { b1 with block_expires_at := some (now + (rule.block_duration : Int)) }
    else b1
  if rule.max_attempts ≤ b2.attempt_count then { b2 with is_active := true } else b2

/-! ## Counter Store: Redis sorted-set backend and Django-cache fallback -/

/-- Counter keys: `f"rate_limit:{action}:{scope}:{identifier}:{window}"`. -/
inductive Scope
| ip
| user
deriving DecidableEq, Repr

/-- Structured form of the rate-limit key string
`rate_limit:{action}:{scope}:{identifier}:{window}`; the components
determine the string injectively. -/
structure RLKey where
  action : String
  scope : Scope
  ident : String
  window : Window
deriving DecidableEq, Repr

/-- Redis `ZREMRANGEBYSCORE key lo hi`: removes members whose score lies in
the closed interval `[lo, hi]`.  Scores here are the event timestamps
(`Nat`, from `int(time.time())`); members are `f"{ts}:{success}"` pairs. -/
def zremrangebyscore (events : List (Nat × Bool)) (lo hi : Int) : List (Nat × Bool) :=
  events.filter (fun e => !(decide (lo ≤ (e.1 : Int)) && decide ((e.1 : Int) ≤ hi)))

/-- Redis `ZADD key {member: score}` on a member that encodes its own score
(`f"{current_time}:{success}"` with score `current_time`): inserting an
already-present member only rewrites its (identical) score, so the set of
members is unchanged; a new member is added. -/
def zadd (events : List (Nat × Bool)) (member : Nat × Bool) : List (Nat × Bool) :=
  if member ∈ events then events else events ++ [member]

/-- `RedisRateLimiter._get_request_count_redis` (rate_limiter.py 222-234):
`zremrangebyscore(key, 0, window_start)` then `zcard`.  Returns the
surviving member list together with the count. -/
def get_request_count_redis (events : List (Nat × Bool)) (window_start : Int) :
    List (Nat × Bool) × Nat :=
  let remaining := zremrangebyscore events 0 window_start
  (remaining, remaining.length)

/-- Helper for the cache fallback: the list comprehension
`[ts for ts in timestamps if ts >= window_start]`. -/
def validTimestamps (timestamps : List Nat) (window_start : Int) : List Nat :=
  timestamps.filter (fun ts => decide (window_start ≤ (ts : Int)))

/-- Count returned by `RedisRateLimiter._get_request_count_cache`
(rate_limiter.py 236-252) for one key: the length of the filtered list. -/
def get_request_count_cache (timestamps : List Nat) (window_start : Int) : Nat :=
  (validTimestamps timestamps window_start).length

/-- State of the Django cache fallback: per key the stored timestamp list
(`cache.get(key, [])` yields `[]` when absent) and the timeout argument of
the most recent `cache.set` on that key, when any. -/
structure CacheState where
  entries : RLKey → List Nat
  timeout : RLKey → Option Nat

/-- `RedisRateLimiter._get_request_count_cache` with its cache side effect:
when filtering dropped at least one timestamp the filtered list is written
back with a fixed 300-second timeout; otherwise the cache is untouched. -/
def get_request_count_cacheS (s : CacheState) (k : RLKey) (window_start : Int) :
    Nat × CacheState :=
  let timestamps := s.entries k
  let valid := validTimestamps timestamps window_start
  if valid.length ≠ timestamps.length then
    (valid.length,
      { entries := Function.update s.entries k valid
        timeout := Function.update s.timeout k (some 300) })
  else
    (valid.length, s)

/-- One loop iteration of `_record_ip_request_cache` /
`_record_user_request_cache` (rate_limiter.py 303-329, 358-384):
`cache.set(key, timestamps + [current_time], timeout)` with the
window-dependent timeout 120 / 7200 / 172800. -/
def cache_set_record (s : CacheState) (k : RLKey) (t : Nat) : CacheState :=
  { entries := Function.update s.entries k (s.entries k ++ [t])
    timeout := Function.update s.timeout k (some k.window.recordExpiry) }

/-- `RedisRateLimiter._record_ip_request_cache`: appends the current
timestamp under each of the three window keys for the IP scope. -/
def record_ip_request_cache (s : CacheState) (action ip : String) (t : Nat) : CacheState :=
  timeWindows.foldl (fun s w => cache_set_record s ⟨action, Scope.ip, ip, w⟩ t) s

/-- `RedisRateLimiter._record_user_request_cache`: appends the current
timestamp under each of the three window keys for the user scope. -/
def record_user_request_cache (s : CacheState) (action u : String) (t : Nat) : CacheState :=
  timeWindows.foldl (fun s w => cache_set_record s ⟨action, Scope.user, u, w⟩ t) s

/-- `RedisRateLimiter.record_request` (rate_limiter.py 254-272) on the
cache backend: record the IP scope, then the user scope when a user
identifier was supplied. -/
def record_request_cache (s : CacheState) (action ip : String)
    (userIdent : Option String) (t : Nat) : CacheState :=
  let s1 := record_ip_request_cache s action ip t
  match userIdent with
  | some u => record_user_request_cache s1 action u t
  | none => s1

/-- State of the Redis backend: per key the sorted-set member list and the
expiry most recently applied with `EXPIRE`. -/
structure RedisState where
  entries : RLKey → List (Nat × Bool)
  expiry : RLKey → Option Nat

/-- One loop iteration of `_record_ip_request_redis` /
`_record_user_request_redis` (rate_limiter.py 281-301, 338-356):
`zadd(key, {f"{current_time}:{success}": current_time})` followed by
`expire(key, 120 | 7200 | 172800)` according to the window. -/
def redis_set_record (s : RedisState) (k : RLKey) (t : Nat) (success : Bool) : RedisState :=
  { entries := Function.update s.entries k (zadd (s.entries k) (t, success))
    expiry := Function.update s.expiry k (some k.window.recordExpiry) }

/-- `RedisRateLimiter._record_ip_request_redis`: one `zadd` + `expire` per
window key for the IP scope. -/
def record_ip_request_redis (s : RedisState) (action ip : String) (t : Nat)
    (success : Bool) : RedisState :=
  timeWindows.foldl (fun s w => redis_set_record s ⟨action, Scope.ip, ip, w⟩ t success) s

/-- `RedisRateLimiter._record_user_request_redis`: one `zadd` + `expire`
per window key for the user scope. -/
def record_user_request_redis (s : RedisState) (action u : String) (t : Nat)
    (success : Bool) : RedisState :=
  timeWindows.foldl (fun s w => redis_set_record s ⟨action, Scope.user, u, w⟩ t success) s

/-- `RedisRateLimiter.record_request` on the Redis backend. -/
def record_request_redis (s : RedisState) (action ip : String)
    (userIdent : Option String) (t : Nat) (success : Bool) : RedisState :=
  let s1 := record_ip_request_redis s action ip t success
  match userIdent with
  | some u => record_user_request_redis s1 action u t success
  | none => s1

/-! ## Decision Engine: per-scope window check and retry-after -/

/-- Backend reads may raise; `_get_request_count_redis` and
`_get_request_count_cache` both catch every exception and return `0`
(rate_limiter.py 232-234 and 250-252). -/
def get_request_count_safe (backendResult : Except String Nat) : Nat :=
  match backendResult with
  | .ok n => n
  | .error _ => 0

/-- Per-window entries of the `info` dict built by `_check_ip_rate_limit` /
`_check_user_rate_limit`: `{window}_count`, `{window}_limit`,
`{window}_remaining = max(0, limit - count)`. -/
structure WindowInfo where
  count : Nat
  limit : Nat
  remaining : Nat
deriving DecidableEq, Repr

/-- Result of one scope's check: the `is_limited` flag, the
`blocked_window` entry of the info dict (absent when nothing tripped), and
the per-window info entries (absent before the loop reaches the window). -/
structure ScopeCheckResult where
  is_limited : Bool
  blocked_window : Option Window
  winfo : Window → Option WindowInfo

/-- Loop of `_check_ip_rate_limit` / `_check_user_rate_limit`
(rate_limiter.py 142-177, 179-213), parametrised by the per-window limit
and the per-window count the Counter Store returned: for each window in
minute→hour→day order, record count/limit/remaining, and on
`count >= limit` set `is_limited = True` and overwrite `blocked_window`. -/
def check_scope_rate_limit (limits counts : Window → Nat) : ScopeCheckResult :=
  timeWindows.foldl
    (fun acc w =>
      let count := counts w
      let limit := limits w
      let acc := { acc with
        winfo := Function.update acc.winfo w (some ⟨count, limit, limit - count⟩) }
      if limit ≤ count then
        { acc with is_limited := true, blocked_window := some w }
      else acc)
    ⟨false, none, fun _ => none⟩

/-- Scope check wired to a fallible backend through
`_get_request_count`: an erroring backend contributes count `0`. -/
def check_scope_from_backend (limits : Window → Nat)
    (backend : Window → Except String Nat) : ScopeCheckResult :=
  check_scope_rate_limit limits (fun w => get_request_count_safe (backend w))

/-- `RedisRateLimiter._calculate_retry_after` (rate_limiter.py 436-456):
collect 60 / 3600 / 86400 for each of the ip and user `blocked_window`
entries that are present, and return `max(delays)`, or `0` for an empty
list. -/
def calculate_retry_after (ipW userW : Option Window) : Nat :=
  let delays : List Nat :=
    (match ipW with
     | some Window.minute => [60]
     | some Window.hour => [3600]
     | some Window.day => [86400]
     | none => []) ++
    (match userW with
     | some Window.minute => [60]
     | some Window.hour => [3600]
     | some Window.day => [86400]
     | none => [])
  match delays with
  | [] => 0
  | d :: ds => ds.foldl Nat.max d

/-- Fields of the `rate_limit_info` dict assembled by `check_rate_limit`,
plus the returned `is_limited` flag. -/
structure RateLimitInfo where
  is_limited : Bool
  ip_limited : Bool
  user_limited : Bool
  ip_blocked : Bool
  ip_blocked_window : Option Window
  user_blocked_window : Option Window
  retry_after : Nat

/-- `RedisRateLimiter.check_rate_limit` (rate_limiter.py 96-140),
parametrised by the per-window counts each scope's Counter Store read
produced (`userCounts = none` when no user identifier was supplied) and by
the Block Registry verdict: `is_limited = ip_limited or user_limited or
ip_blocked`, `retry_after = _calculate_retry_after(ip_info, user_info)`. -/
def check_rate_limit (ipLimits userLimits ipCounts : Window → Nat)
    (userCounts : Option (Window → Nat)) (ipBlocked : Bool) : RateLimitInfo :=
  let ipRes := check_scope_rate_limit ipLimits ipCounts
  let userRes : ScopeCheckResult :=
    match userCounts with
    | some c => check_scope_rate_limit userLimits c
    | none => ⟨false, none, fun _ => none⟩
  { is_limited := ipRes.is_limited || userRes.is_limited || ipBlocked
    ip_limited := ipRes.is_limited
    user_limited := userRes.is_limited
    ip_blocked := ipBlocked
    ip_blocked_window := ipRes.blocked_window
    user_blocked_window := userRes.blocked_window
    retry_after := calculate_retry_after ipRes.blocked_window userRes.blocked_window }

/-! ## 2FA rate limiter (`TwoFactorRateLimiter`, utils.py 169-246) -/

/-- Row of the `TwoFactorAttempt` table as read by `is_rate_limited`:
creation time (epoch seconds) and success flag. -/
structure TwoFactorAttempt where
  created_at : Int
  success : Bool
deriving DecidableEq, Repr

/-- `MAX_ATTEMPTS_PER_USER = 5`. -/
def MAX_ATTEMPTS_PER_USER : Nat := 5

/-- `MAX_ATTEMPTS_PER_IP = 10`. -/
def MAX_ATTEMPTS_PER_IP : Nat := 10

/-- `TIME_WINDOW_MINUTES = 15`. -/
def TIME_WINDOW_MINUTES : Nat := 15

/-- `LOCKOUT_DURATION_MINUTES = 30`. -/
def LOCKOUT_DURATION_MINUTES : Nat := 30

/-- Count of `TwoFactorAttempt` rows with `created_at >= since` and
`success=False` — the shape of both window queries in `is_rate_limited`. -/
def countFailuresSince (attempts : List TwoFactorAttempt) (since : Int) : Nat :=
  (attempts.filter (fun a => decide (since ≤ a.created_at) && !a.success)).length

/-- `created_at` of the most recent failed attempt
(`order_by('-created_at').first()` over `success=False` rows). -/
def lastFailureTime (attempts : List TwoFactorAttempt) : Option Int :=
  (attempts.filter (fun a => !a.success)).foldl
    (fun acc a =>
      match acc with
      | none => some a.created_at
      | some m => some (max m a.created_at)) none

/-- `TwoFactorRateLimiter.is_rate_limited` (utils.py 179-246): the
lockout-window branch (≥5 failures in the trailing 30 minutes, still
within most-recent-failure + 30 min), then the 15-minute user window, then
the 15-minute IP window, else not limited with
`remaining = MAX_ATTEMPTS_PER_USER - user_attempts`.
Returns `(is_limited, remaining_attempts, lockout_ends_at)`. -/
def is_rate_limited (userAttempts : List TwoFactorAttempt)
    (ipAttempts : Option (List TwoFactorAttempt)) (now : Int) :
    Bool × Int × Option Int :=
  let time_window_start := now - (TIME_WINDOW_MINUTES : Int) * 60
  let lockout_end := now - (LOCKOUT_DURATION_MINUTES : Int) * 60
  let user_attempts := countFailuresSince userAttempts time_window_start
  let recent_failures := countFailuresSince userAttempts lockout_end
  let lockoutBranch : Option (Bool × Int × Option Int) :=
    if MAX_ATTEMPTS_PER_USER ≤ recent_failures then
      match lastFailureTime userAttempts with
      | some lf =>
          let lockout_ends_at := lf + (LOCKOUT_DURATION_MINUTES : Int) * 60
          if now < lockout_ends_at then some (true, 0, some lockout_ends_at) else none
      | none => none
    else none
  match lockoutBranch with
  | some r => r
  | none =>
      if MAX_ATTEMPTS_PER_USER ≤ user_attempts then
        (true, 0, some (now + (LOCKOUT_DURATION_MINUTES : Int) * 60))
      else
        let ipLimited : Bool :=
          match ipAttempts with
          | some ipa => decide (MAX_ATTEMPTS_PER_IP ≤ countFailuresSince ipa time_window_start)
          | none => false
        if ipLimited then
          (true, 0, some (now + (LOCKOUT_DURATION_MINUTES : Int) * 60))
        else
          (false, (MAX_ATTEMPTS_PER_USER : Int) - (user_attempts : Int), none)

/-! ## Helper lemmas -/

/-- Unfolding of the scope-check fold: the per-window info entry is always
written, with `remaining = limit - count` (truncated subtraction, matching
Python's `max(0, limit - count)`). -/
lemma check_scope_winfo (L C : Window → Nat) (w : Window) :
    (check_scope_rate_limit L C).winfo w = some ⟨C w, L w, L w - C w⟩ := by
  by_cases h1 : L Window.minute ≤ C Window.minute <;>
    by_cases h2 : L Window.hour ≤ C Window.hour <;>
      by_cases h3 : L Window.day ≤ C Window.day <;>
        cases w <;>
          simp [check_scope_rate_limit, timeWindows, h1, h2, h3, Function.update_apply]

/-- The `blocked_window` entry is the last window in minute→hour→day order
whose count reached its limit. -/
lemma check_scope_blocked_window (L C : Window → Nat) :
    (check_scope_rate_limit L C).blocked_window =
      (if L Window.day ≤ C Window.day then some Window.day
       else if L Window.hour ≤ C Window.hour then some Window.hour
       else if L Window.minute ≤ C Window.minute then some Window.minute
       else none) := by
  by_cases h1 : L Window.minute ≤ C Window.minute <;>
    by_cases h2 : L Window.hour ≤ C Window.hour <;>
      by_cases h3 : L Window.day ≤ C Window.day <;>
        simp [check_scope_rate_limit, timeWindows, h1, h2, h3]

/-- The scope is limited exactly when some window's count reached its
limit. -/
lemma check_scope_is_limited (L C : Window → Nat) :
    (check_scope_rate_limit L C).is_limited =
      (decide (L Window.minute ≤ C Window.minute) ||
       decide (L Window.hour ≤ C Window.hour) ||
       decide (L Window.day ≤ C Window.day)) := by
  by_cases h1 : L Window.minute ≤ C Window.minute <;>
    by_cases h2 : L Window.hour ≤ C Window.hour <;>
      by_cases h3 : L Window.day ≤ C Window.day <;>
        simp [check_scope_rate_limit, timeWindows, h1, h2, h3]

/-- Closed form of `_calculate_retry_after` as a binary max, with `0` for
an absent trip window. -/
lemma calculate_retry_after_eq (a b : Option Window) :
    calculate_retry_after a b =
      Nat.max
        (match a with
         | some Window.minute => 60
         | some Window.hour => 3600
         | some Window.day => 86400
         | none => 0)
        (match b with
         | some Window.minute => 60
         | some Window.hour => 3600
         | some Window.day => 86400
         | none => 0) := by
  rcases a with _ | wa <;> rcases b with _ | wb <;>
    first
      | rfl
      | (cases wa <;> rfl)
      | (cases wb <;> rfl)
      | (cases wa <;> cases wb <;> rfl)

/-- Re-filtering with a later (or equal) window start gives the same
result as filtering the original list once. -/
lemma validTimestamps_mono (l : List Nat) (ws ws' : Int) (h : ws ≤ ws') :
    validTimestamps (validTimestamps l ws) ws' = validTimestamps l ws' := by
  induction l with
  | nil => rfl
  | cons a tl ih =>
      by_cases h1 : ws ≤ (a : Int)
      · by_cases h2 : ws' ≤ (a : Int) <;>
          simp [validTimestamps, List.filter_cons, h1, h2] at * <;> exact ih
      · have h2 : ¬ ws' ≤ (a : Int) := fun hc => h1 (le_trans h hc)
        simp [validTimestamps, List.filter_cons, h1, h2] at *
        exact ih

/-- A list containing an element that fails the predicate shrinks under
`filter`. -/
lemma length_filter_ne {α : Type} (l : List α) (p : α → Bool) (x : α)
    (hx : x ∈ l) (hpx : p x = false) : (l.filter p).length ≠ l.length := by
  have hlt : (l.filter p).length < l.length := by
    induction l with
    | nil => cases hx
    | cons a tl ih =>
        rcases List.mem_cons.mp hx with rfl | hmem
        · have hle := List.length_filter_le p tl
          simp [List.filter_cons, hpx]
          omega
        · by_cases hpa : p a = true
          · simpa [List.filter_cons, hpa] using Nat.succ_lt_succ (ih hmem)
          · have hle := List.length_filter_le p tl
            simp [List.filter_cons, hpa]
            omega
  omega

/-- The Redis read counts exactly the members with score strictly above
`window_start`: `zremrangebyscore key 0 window_start` removes the closed
range, and scores (timestamps) are never negative. -/
lemma get_request_count_redis_strict (events : List (Nat × Bool)) (ws : Int) :
    (get_request_count_redis events ws).2 =
      (events.filter (fun e => decide (ws < (e.1 : Int)))).length := by
  show (zremrangebyscore events 0 ws).length = _
  unfold zremrangebyscore
  congr 1
  apply List.filter_congr
  intro e _
  have h0 : (0 : Int) ≤ (e.1 : Int) := Int.natCast_nonneg _
  by_cases h : (e.1 : Int) ≤ ws
  · simp [h0, h, not_lt.mpr h]
  · simp [h0, h, not_le.mp h]

/-- On inputs with no event exactly at the boundary, the strict (Redis)
and non-strict (cache) filters agree. -/
lemma redis_cache_agree (events : List (Nat × Bool)) (ws : Int)
    (h : ∀ e ∈ events, ((e : Nat × Bool).1 : Int) ≠ ws) :
    (get_request_count_redis events ws).2 =
      get_request_count_cache (events.map Prod.fst) ws := by
  rw [get_request_count_redis_strict]
  unfold get_request_count_cache validTimestamps
  induction events with
  | nil => rfl
  | cons a tl ih =>
      have ha := h a (List.mem_cons_self a tl)
      have htl := ih (fun e he => h e (List.mem_cons_of_mem _ he))
      by_cases hlt : ws < (a.1 : Int)
      · have hle : ws ≤ (a.1 : Int) := le_of_lt hlt
        simpa [List.filter_cons, hlt, hle] using htl
      · have hle : ¬ ws ≤ (a.1 : Int) := fun hc =>
          ha (le_antisymm (not_lt.mp hlt) hc)
        simpa [List.filter_cons, hlt, hle] using htl

/-- Cardinality effect of `zadd`: unchanged on a duplicate member, one
more otherwise. -/
lemma zadd_length (l : List (Nat × Bool)) (m : Nat × Bool) :
    (zadd l m).length = if m ∈ l then l.length else l.length + 1 := by
  unfold zadd
  split <;> simp_all

/-- Reading the updated entry of `cache_set_record`. -/
lemma cache_set_record_entries (s : CacheState) (k k' : RLKey) (t : Nat) :
    (cache_set_record s k t).entries k' =
      if k' = k then s.entries k ++ [t] else s.entries k' := by
  simp [cache_set_record, Function.update_apply]

/-- Reading the updated timeout of `cache_set_record`. -/
lemma cache_set_record_timeout (s : CacheState) (k k' : RLKey) (t : Nat) :
    (cache_set_record s k t).timeout k' =
      if k' = k then some k.window.recordExpiry else s.timeout k' := by
  simp [cache_set_record, Function.update_apply]

/-- Reading the updated entry of `redis_set_record`. -/
lemma redis_set_record_entries (s : RedisState) (k k' : RLKey) (t : Nat) (b : Bool) :
    (redis_set_record s k t b).entries k' =
      if k' = k then zadd (s.entries k) (t, b) else s.entries k' := by
  simp [redis_set_record, Function.update_apply]

/-- The three-window cache record fold, unfolded. -/
lemma record_ip_request_cache_eq (s : CacheState) (action ip : String) (t : Nat) :
    record_ip_request_cache s action ip t =
      cache_set_record
        (cache_set_record
          (cache_set_record s ⟨action, Scope.ip, ip, Window.minute⟩ t)
          ⟨action, Scope.ip, ip, Window.hour⟩ t)
        ⟨action, Scope.ip, ip, Window.day⟩ t := rfl

/-- The three-window cache record fold for the user scope, unfolded. -/
lemma record_user_request_cache_eq (s : CacheState) (action u : String) (t : Nat) :
    record_user_request_cache s action u t =
      cache_set_record
        (cache_set_record
          (cache_set_record s ⟨action, Scope.user, u, Window.minute⟩ t)
          ⟨action, Scope.user, u, Window.hour⟩ t)
        ⟨action, Scope.user, u, Window.day⟩ t := rfl

/-- The three-window Redis record fold, unfolded. -/
lemma record_ip_request_redis_eq (s : RedisState) (action ip : String) (t : Nat) (b : Bool) :
    record_ip_request_redis s action ip t b =
      redis_set_record
        (redis_set_record
          (redis_set_record s ⟨action, Scope.ip, ip, Window.minute⟩ t b)
          ⟨action, Scope.ip, ip, Window.hour⟩ t b)
        ⟨action, Scope.ip, ip, Window.day⟩ t b := rfl

/-- The IP-scope record on the cache backend appends exactly the current
timestamp at each window key. -/
lemma record_ip_cache_entries (s : CacheState) (action ip : String) (t : Nat) (w : Window) :
    (record_ip_request_cache s action ip t).entries ⟨action, Scope.ip, ip, w⟩ =
      s.entries ⟨action, Scope.ip, ip, w⟩ ++ [t] := by
  cases w <;>
    simp [record_ip_request_cache_eq, cache_set_record_entries, RLKey.mk.injEq]

/-- The user-scope record on the cache backend appends exactly the current
timestamp at each window key. -/
lemma record_user_cache_entries (s : CacheState) (action u : String) (t : Nat) (w : Window) :
    (record_user_request_cache s action u t).entries ⟨action, Scope.user, u, w⟩ =
      s.entries ⟨action, Scope.user, u, w⟩ ++ [t] := by
  cases w <;>
    simp [record_user_request_cache_eq, cache_set_record_entries, RLKey.mk.injEq]

/-- Keys outside its three window keys are untouched by the IP-scope cache
record. -/
lemma record_ip_cache_entries_frame (s : CacheState) (action ip : String) (t : Nat)
    (k' : RLKey) (hk' : ∀ w : Window, k' ≠ ⟨action, Scope.ip, ip, w⟩) :
    (record_ip_request_cache s action ip t).entries k' = s.entries k' := by
  have h1 := hk' Window.minute
  have h2 := hk' Window.hour
  have h3 := hk' Window.day
  simp [record_ip_request_cache_eq, cache_set_record_entries, h1, h2, h3]

/-- Keys outside its three window keys are untouched by the user-scope
cache record. -/
lemma record_user_cache_entries_frame (s : CacheState) (action u : String) (t : Nat)
    (k' : RLKey) (hk' : ∀ w : Window, k' ≠ ⟨action, Scope.user, u, w⟩) :
    (record_user_request_cache s action u t).entries k' = s.entries k' := by
  have h1 := hk' Window.minute
  have h2 := hk' Window.hour
  have h3 := hk' Window.day
  simp [record_user_request_cache_eq, cache_set_record_entries, h1, h2, h3]

/-- IP-scope window keys and user-scope window keys never coincide. -/
lemma ip_user_key_ne (action ip u : String) (w w' : Window) :
    (⟨action, Scope.ip, ip, w⟩ : RLKey) ≠ ⟨action, Scope.user, u, w'⟩ := by
  simp [RLKey.mk.injEq]

/-- The three-window Redis record fold for the user scope, unfolded. -/
lemma record_user_request_redis_eq (s : RedisState) (action u : String) (t : Nat) (b : Bool) :
    record_user_request_redis s action u t b =
      redis_set_record
        (redis_set_record
          (redis_set_record s ⟨action, Scope.user, u, Window.minute⟩ t b)
          ⟨action, Scope.user, u, Window.hour⟩ t b)
        ⟨action, Scope.user, u, Window.day⟩ t b := rfl

/-- The IP-scope record on the Redis backend performs one `zadd` of the
`(timestamp, success)` member at each window key. -/
lemma record_ip_redis_entries (s : RedisState) (action ip : String) (t : Nat) (b : Bool)
    (w : Window) :
    (record_ip_request_redis s action ip t b).entries ⟨action, Scope.ip, ip, w⟩ =
      zadd (s.entries ⟨action, Scope.ip, ip, w⟩) (t, b) := by
  cases w <;>
    simp [record_ip_request_redis_eq, redis_set_record_entries, RLKey.mk.injEq]

/-- Keys outside its three window keys are untouched by the user-scope
Redis record. -/
lemma record_user_redis_entries_frame (s : RedisState) (action u : String) (t : Nat) (b : Bool)
    (k' : RLKey) (hk' : ∀ w : Window, k' ≠ ⟨action, Scope.user, u, w⟩) :
    (record_user_request_redis s action u t b).entries k' = s.entries k' := by
  have h1 := hk' Window.minute
  have h2 := hk' Window.hour
  have h3 := hk' Window.day
  simp [record_user_request_redis_eq, redis_set_record_entries, h1, h2, h3]

/-- The IP-scope cache record stamps each window key with its
window-dependent lifetime. -/
lemma record_ip_cache_timeout (s : CacheState) (action ip : String) (t : Nat) (w : Window) :
    (record_ip_request_cache s action ip t).timeout ⟨action, Scope.ip, ip, w⟩ =
      some w.recordExpiry := by
  cases w <;>
    simp [record_ip_request_cache_eq, cache_set_record_timeout, RLKey.mk.injEq]

/-- A cache read never lengthens the stored list for its key. -/
lemma get_request_count_cacheS_length_le (s : CacheState) (k : RLKey) (ws : Int) :
    ((get_request_count_cacheS s k ws).2.entries k).length ≤ (s.entries k).length := by
  unfold get_request_count_cacheS
  dsimp only
  split
  · simpa [Function.update_apply, validTimestamps]
      using List.length_filter_le (fun ts : Nat => decide (ws ≤ (ts : Int))) (s.entries k)
  · exact le_refl _

/-- A cache read leaves the count that any later read (same or later
window start) observes unchanged, for every key. -/
lemma get_request_count_cacheS_count_preserved (s : CacheState) (k : RLKey) (ws ws' : Int)
    (k₂ : RLKey) (h : ws ≤ ws') :
    get_request_count_cache ((get_request_count_cacheS s k ws).2.entries k₂) ws' =
      get_request_count_cache (s.entries k₂) ws' := by
  unfold get_request_count_cacheS
  dsimp only
  split
  · by_cases hk : k₂ = k
    · subst hk
      show get_request_count_cache (Function.update s.entries k₂ _ k₂) ws' = _
      rw [Function.update_same]
      unfold get_request_count_cache
      rw [validTimestamps_mono _ _ _ h]
    · show get_request_count_cache (Function.update s.entries k _ k₂) ws' = _
      rw [Function.update_noteq hk]
  · rfl

/-! ## Claim theorems -/

/-- C1: the claim says a Block Record produced by rule escalation stays
inert (`is_blocked` false) until `attempt_count` reaches
`rule.max_attempts`.  The code contradicts this: `get_or_create`'s
defaults omit `is_active`, so a freshly created record takes the model
default `is_active=True` and — its expiry having been set to
`now + block_duration` — is enforced immediately.  With a rule requiring
3 attempts, a single escalation of a fresh IP yields `attempt_count = 1 <
3` yet `is_active = true` and `is_blocked` already true. -/
theorem c1_fresh_escalation_already_blocked :
    (apply_block_rule none ⟨3, 3600, false⟩ "login-abuse" 1000).attempt_count = 1 ∧
    (apply_block_rule none ⟨3, 3600, false⟩ "login-abuse" 1000).attempt_count <
      (⟨3, 3600, false⟩ : IPBlockRule).max_attempts ∧
    (apply_block_rule none ⟨3, 3600, false⟩ "login-abuse" 1000).is_active = true ∧
    (is_ip_blocked (some (apply_block_rule none ⟨3, 3600, false⟩ "login-abuse" 1000)) 1000).1
      = true := by
  decide

/-- C2 counterexample: with limits minute=1, hour=1, day=100 and counts
minute=1, hour=1, day=0 both the minute and the hour window trip, yet the
reported `blocked_window` is `hour`, not the first-encountered `minute`
that the claim predicts. -/
theorem c2_counterexample :
    (fun L C : Window → Nat =>
      L Window.minute ≤ C Window.minute ∧
      L Window.hour ≤ C Window.hour ∧
      (check_scope_rate_limit L C).blocked_window = some Window.hour ∧
      (check_scope_rate_limit L C).blocked_window ≠ some Window.minute)
      (fun w => match w with | Window.minute => 1 | Window.hour => 1 | Window.day => 100)
      (fun w => match w with | Window.minute => 1 | Window.hour => 1 | Window.day => 0) := by
  decide

/-- C2 amended: exactly one tripped window is surfaced, and it is the
*last* one encountered in minute→hour→day order — the largest tripped
window — because each trip overwrites `info['blocked_window']`. -/
theorem c2_blocked_window_last_tripped (L C : Window → Nat) :
    (check_scope_rate_limit L C).blocked_window =
      (if L Window.day ≤ C Window.day then some Window.day
       else if L Window.hour ≤ C Window.hour then some Window.hour
       else if L Window.minute ≤ C Window.minute then some Window.minute
       else none) := by
  exact check_scope_blocked_window L C

/-- C3 counterexample: an event at timestamp 5 with `window_start = 5` is
evicted by the Redis backend (`zremrangebyscore` removes the closed range
`[0, window_start]`) but retained by the cache fallback (which keeps
`ts >= window_start`), so the cache count is not the
strictly-greater-than count and the two backends disagree. -/
theorem c3_counterexample :
    (get_request_count_redis [(5, true)] 5).2 = 0 ∧
    get_request_count_cache [5] 5 = 1 ∧
    (([5] : List Nat).filter (fun ts => decide ((5 : Int) < (ts : Int)))).length = 0 := by
  decide

/-- C3 amended: the Redis backend counts exactly the events with
timestamp strictly greater than `window_start`; the cache fallback counts
the events with timestamp ≥ `window_start`; the two agree on every input
in which no event sits exactly at `window_start`. -/
theorem c3_backend_counts (events : List (Nat × Bool)) (ws : Int)
    (h : ∀ e ∈ events, ((e : Nat × Bool).1 : Int) ≠ ws) :
    (get_request_count_redis events ws).2 =
      (events.filter (fun e => decide (ws < (e.1 : Int)))).length ∧
    get_request_count_cache (events.map Prod.fst) ws =
      ((events.map Prod.fst).filter (fun ts : Nat => decide (ws ≤ (ts : Int)))).length ∧
    (get_request_count_redis events ws).2 =
      get_request_count_cache (events.map Prod.fst) ws := by
  refine ⟨get_request_count_redis_strict events ws, rfl, redis_cache_agree events ws h⟩

/-- C3 witness. -/
theorem c3_witness :
    (get_request_count_redis [(10, true)] 4).2 =
      (([(10, true)] : List (Nat × Bool)).filter (fun e => decide ((4 : Int) < (e.1 : Int)))).length ∧
    (get_request_count_redis [(10, true)] 4).2 =
      get_request_count_cache ([(10, true)].map Prod.fst) 4 := by
  have h := c3_backend_counts [(10, true)] 4 (by decide)
  exact ⟨h.1, h.2.2⟩

/-- C7 counterexample: a permanent Block Record that is not active
(`is_active=false`) makes `is_blocked` return false, so "every Block
Record with `is_permanent=true` returns true at every query time" fails
without an `is_active=true` premise. -/
theorem c7_counterexample :
    ((⟨"manual", some (-5), 7, none, true, false⟩ : BlockedIP).is_permanent = true) ∧
    ((⟨"manual", some (-5), 7, none, true, false⟩ : BlockedIP).is_blocked 0).1 = false := by
  decide

/-- C7 amended: for every *active* permanent Block Record, any value of
`block_expires_at` (even in the past) and any query time, `is_blocked`
returns true and leaves the record unchanged — a permanent block never
expires. -/
theorem c7_permanent_never_expires (b : BlockedIP) (now : Int)
    (ha : b.is_active = true) (hp : b.is_permanent = true) :
    b.is_blocked now = (true, b) := by
  simp [BlockedIP.is_blocked, ha, hp]

/-- C7 witness. -/
theorem c7_witness :
    (⟨"manual", some (-5), 7, none, true, true⟩ : BlockedIP).is_blocked (-100) =
      (true, ⟨"manual", some (-5), 7, none, true, true⟩) := by
  exact c7_permanent_never_expires ⟨"manual", some (-5), 7, none, true, true⟩ (-100) rfl rfl

/-- C8: a non-permanent active Block Record whose expiry is strictly in
the past returns false on the first `is_blocked` call and is flipped to
`is_active=false` as a side effect; every later call (at any query time)
also returns false and leaves the record unchanged. -/
theorem c8_lazy_expiry (b : BlockedIP) (now e : Int)
    (hp : b.is_permanent = false) (ha : b.is_active = true)
    (he : b.block_expires_at = some e) (hpast : e < now) :
    b.is_blocked now = (false, { b with is_active := false }) ∧
    ∀ now' : Int,
      ({ b with is_active := false } : BlockedIP).is_blocked now' =
        (false, { b with is_active := false }) := by
  constructor
  · simp [BlockedIP.is_blocked, ha, hp, he, hpast]
  · intro now'
    simp [BlockedIP.is_blocked]

/-- C8 witness. -/
theorem c8_witness :
    (⟨"r", some 10, 3, none, false, true⟩ : BlockedIP).is_blocked 20 =
      (false, ⟨"r", some 10, 3, none, false, false⟩) ∧
    (⟨"r", some 10, 3, none, false, false⟩ : BlockedIP).is_blocked 5 =
      (false, ⟨"r", some 10, 3, none, false, false⟩) := by
  have h := c8_lazy_expiry ⟨"r", some 10, 3, none, false, true⟩ 20 10 rfl rfl rfl (by decide)
  exact ⟨h.1, h.2 5⟩

/-- C4: a backend error during `count` is absorbed as count `0` inside
`_get_request_count_*` (the embedding is total, so nothing propagates to
the request path): the erroring window is reported with count 0 and full
remaining budget, can never be the tripped window when its limit is
positive, and when every window errors with positive limits the scope is
not limited at all. -/
theorem c4_fail_open (L : Window → Nat) (backend : Window → Except String Nat)
    (w : Window) (msg : String)
    (hw : backend w = Except.error msg) (hl : 0 < L w) :
    get_request_count_safe (backend w) = 0 ∧
    (check_scope_from_backend L backend).winfo w = some ⟨0, L w, L w⟩ ∧
    (check_scope_from_backend L backend).blocked_window ≠ some w ∧
    ((∀ w', ∃ m, backend w' = Except.error m) → (∀ w', 0 < L w') →
      (check_scope_from_backend L backend).is_limited = false) := by
  have hcount : get_request_count_safe (backend w) = 0 := by
    rw [hw]
    rfl
  refine ⟨hcount, ?_, ?_, ?_⟩
  · rw [check_scope_from_backend, check_scope_winfo]
    simp [hcount]
  · rw [check_scope_from_backend, check_scope_blocked_window]
    have hnot : ¬ L w ≤ get_request_count_safe (backend w) := by
      rw [hcount]
      omega
    cases w <;> split_ifs <;> simp_all
  · intro herr hpos
    rw [check_scope_from_backend, check_scope_is_limited]
    have hz : ∀ w', get_request_count_safe (backend w') = 0 := by
      intro w'
      obtain ⟨m, hm⟩ := herr w'
      rw [hm]
      rfl
    have h1 : ¬ L Window.minute ≤ get_request_count_safe (backend Window.minute) := by
      rw [hz]
      have := hpos Window.minute
      omega
    have h2 : ¬ L Window.hour ≤ get_request_count_safe (backend Window.hour) := by
      rw [hz]
      have := hpos Window.hour
      omega
    have h3 : ¬ L Window.day ≤ get_request_count_safe (backend Window.day) := by
      rw [hz]
      have := hpos Window.day
      omega
    simp [h1, h2, h3]

/-- C4 witness. -/
theorem c4_witness :
    get_request_count_safe (Except.error "connection refused") = 0 ∧
    (check_scope_from_backend (fun _ => 5) (fun _ => Except.error "connection refused")).winfo
      Window.minute = some ⟨0, 5, 5⟩ ∧
    (check_scope_from_backend (fun _ => 5)
      (fun _ => Except.error "connection refused")).is_limited = false := by
  have h := c4_fail_open (fun _ => 5) (fun _ => Except.error "connection refused")
    Window.minute "connection refused" rfl (Nat.succ_pos 4)
  exact ⟨h.1, h.2.1, h.2.2.2 (fun w' => ⟨"connection refused", rfl⟩) (fun w' => Nat.succ_pos 4)⟩

/-- C5: `retry_after` is the maximum over the ip and user diagnostics of
60 / 3600 / 86400 for a tripped minute / hour / day window (0 for an
absent trip), and is 0 whenever neither scope tripped a window — in
particular when the denial is due solely to an active IP block. -/
theorem c5_retry_after (ipL userL ipC : Window → Nat)
    (userC : Option (Window → Nat)) (blocked : Bool) :
    (check_rate_limit ipL userL ipC userC blocked).retry_after =
      Nat.max
        (match (check_rate_limit ipL userL ipC userC blocked).ip_blocked_window with
         | some Window.minute => 60
         | some Window.hour => 3600
         | some Window.day => 86400
         | none => 0)
        (match (check_rate_limit ipL userL ipC userC blocked).user_blocked_window with
         | some Window.minute => 60
         | some Window.hour => 3600
         | some Window.day => 86400
         | none => 0) ∧
    ((check_rate_limit ipL userL ipC userC blocked).ip_blocked_window = none →
     (check_rate_limit ipL userL ipC userC blocked).user_blocked_window = none →
     (check_rate_limit ipL userL ipC userC blocked).retry_after = 0) := by
  have key :
      (check_rate_limit ipL userL ipC userC blocked).retry_after =
        Nat.max
          (match (check_rate_limit ipL userL ipC userC blocked).ip_blocked_window with
           | some Window.minute => 60
           | some Window.hour => 3600
           | some Window.day => 86400
           | none => 0)
          (match (check_rate_limit ipL userL ipC userC blocked).user_blocked_window with
           | some Window.minute => 60
           | some Window.hour => 3600
           | some Window.day => 86400
           | none => 0) :=
    calculate_retry_after_eq _ _
  refine ⟨key, ?_⟩
  intro h1 h2
  rw [key, h1, h2]
  rfl

/-- C5 witness: a check denied purely by an active IP block (no window
trip) has `retry_after = 0`. -/
theorem c5_witness :
    (check_rate_limit (fun _ => 5) (fun _ => 5) (fun _ => 0) none true).retry_after = 0 := by
  have h := c5_retry_after (fun _ => 5) (fun _ => 5) (fun _ => 0) none true
  refine h.2 ?_ ?_ <;> decide

/-- C6: with at least `MAX_ATTEMPTS_PER_USER = 5` failures inside the
trailing 30-minute lockout window and the most recent failure strictly
less than 30 minutes old, `is_rate_limited` returns limited with 0
remaining attempts and `lockout_ends_at` = most recent failure + 30
minutes. -/
theorem c6_lockout (userAttempts : List TwoFactorAttempt)
    (ipAttempts : Option (List TwoFactorAttempt)) (now lf : Int)
    (h5 : MAX_ATTEMPTS_PER_USER ≤ countFailuresSince userAttempts (now - 1800))
    (hlast : lastFailureTime userAttempts = some lf)
    (hrecent : now - 1800 < lf) :
    is_rate_limited userAttempts ipAttempts now = (true, 0, some (lf + 1800)) := by
  have e1 : (LOCKOUT_DURATION_MINUTES : Int) * 60 = 1800 := by
    norm_num [LOCKOUT_DURATION_MINUTES]
  simp only [is_rate_limited, e1, hlast]
  rw [if_pos h5, if_pos (show now < lf + 1800 by omega)]

/-- C6 witness: a user with 5 failed attempts logged within the last 15
minutes is locked out until most-recent-failure + 30 minutes. -/
theorem c6_witness :
    is_rate_limited
      [⟨9200, false⟩, ⟨9250, false⟩, ⟨9300, false⟩, ⟨9350, false⟩, ⟨9400, false⟩]
      none 10000 = (true, 0, some 11200) := by
  have h := c6_lockout
    [⟨9200, false⟩, ⟨9250, false⟩, ⟨9300, false⟩, ⟨9350, false⟩, ⟨9400, false⟩]
    none 10000 9400 (by decide) (by decide) (by decide)
  simpa using h

/-- C9 counterexample: on the Redis backend the sorted-set member is the
`(timestamp, success)` pair, so a second `record_request` in the same
second with the same outcome adds no new counter event — after two
identical record calls the minute-window key holds 1 member, not 2. -/
theorem c9_counterexample :
    ((record_request_redis
        (record_request_redis ⟨fun _ => [], fun _ => none⟩ "login" "1.2.3.4" none 100 true)
        "login" "1.2.3.4" none 100 true).entries
      ⟨"login", Scope.ip, "1.2.3.4", Window.minute⟩).length = 1 ∧
    ((record_request_redis ⟨fun _ => [], fun _ => none⟩ "login" "1.2.3.4" none 100 true).entries
      ⟨"login", Scope.ip, "1.2.3.4", Window.minute⟩).length = 1 := by
  decide

/-- C9 amended: on the cache backend each `record_request` appends
exactly one timestamp per (scope, window) key — three IP keys, plus three
user keys when a user identifier is supplied — and leaves every other key
untouched; on the Redis backend each record performs one `zadd` of the
`(timestamp, success)` member per key, which grows the count by one
unless an identical member (same second, same outcome) is already
present, in which case the count is unchanged.  A `check` read never
appends: it can only shrink the stored list, and the count any subsequent
read (same or later window start) observes is unchanged. -/
theorem c9_record_appends_check_reads (s : CacheState) (rs : RedisState)
    (action ip u : String) (t : Nat) (success : Bool)
    (k k' : RLKey) (ws ws' : Int) (hws : ws ≤ ws')
    (hk' : ∀ w : Window, k' ≠ ⟨action, Scope.ip, ip, w⟩ ∧ k' ≠ ⟨action, Scope.user, u, w⟩) :
    (∀ w, (record_request_cache s action ip (some u) t).entries ⟨action, Scope.ip, ip, w⟩
        = s.entries ⟨action, Scope.ip, ip, w⟩ ++ [t]) ∧
    (∀ w, (record_request_cache s action ip (some u) t).entries ⟨action, Scope.user, u, w⟩
        = s.entries ⟨action, Scope.user, u, w⟩ ++ [t]) ∧
    (∀ w, (record_request_cache s action ip none t).entries ⟨action, Scope.ip, ip, w⟩
        = s.entries ⟨action, Scope.ip, ip, w⟩ ++ [t]) ∧
    ((record_request_cache s action ip (some u) t).entries k' = s.entries k') ∧
    (∀ w, (record_request_redis rs action ip (some u) t success).entries ⟨action, Scope.ip, ip, w⟩
        = zadd (rs.entries ⟨action, Scope.ip, ip, w⟩) (t, success)) ∧
    (∀ (l : List (Nat × Bool)) (m : Nat × Bool),
        (zadd l m).length = if m ∈ l then l.length else l.length + 1) ∧
    (((get_request_count_cacheS s k ws).2.entries k).length ≤ (s.entries k).length) ∧
    (∀ k₂, get_request_count_cache ((get_request_count_cacheS s k ws).2.entries k₂) ws'
        = get_request_count_cache (s.entries k₂) ws') := by
  refine ⟨?_, ?_, ?_, ?_, ?_, zadd_length, get_request_count_cacheS_length_le s k ws,
    fun k₂ => get_request_count_cacheS_count_preserved s k ws ws' k₂ hws⟩
  · intro w
    show (record_user_request_cache (record_ip_request_cache s action ip t) action u t).entries
        ⟨action, Scope.ip, ip, w⟩ = _
    rw [record_user_cache_entries_frame _ _ _ _ _
      (fun w' => fun hc => ip_user_key_ne action ip u w w' hc)]
    exact record_ip_cache_entries s action ip t w
  · intro w
    show (record_user_request_cache (record_ip_request_cache s action ip t) action u t).entries
        ⟨action, Scope.user, u, w⟩ = _
    rw [record_user_cache_entries]
    rw [record_ip_cache_entries_frame s action ip t _
      (fun w' => (ip_user_key_ne action ip u w' w).symm)]
  · intro w
    exact record_ip_cache_entries s action ip t w
  · show (record_user_request_cache (record_ip_request_cache s action ip t) action u t).entries
        k' = _
    rw [record_user_cache_entries_frame _ _ _ _ _ (fun w => (hk' w).2)]
    exact record_ip_cache_entries_frame s action ip t k' (fun w => (hk' w).1)
  · intro w
    show (record_user_request_redis (record_ip_request_redis rs action ip t success)
        action u t success).entries ⟨action, Scope.ip, ip, w⟩ = _
    rw [record_user_redis_entries_frame _ _ _ _ _ _
      (fun w' => fun hc => ip_user_key_ne action ip u w w' hc)]
    exact record_ip_redis_entries rs action ip t success w

/-- C9 witness. -/
theorem c9_witness :
    (record_request_cache ⟨fun _ => [], fun _ => none⟩ "login" "1.2.3.4" (some "alice") 50).entries
      ⟨"login", Scope.ip, "1.2.3.4", Window.minute⟩ = [50] ∧
    (record_request_cache ⟨fun _ => [], fun _ => none⟩ "login" "1.2.3.4" (some "alice") 50).entries
      ⟨"api", Scope.ip, "8.8.8.8", Window.minute⟩ = [] := by
  have h := c9_record_appends_check_reads ⟨fun _ => [], fun _ => none⟩
    ⟨fun _ => [], fun _ => none⟩ "login" "1.2.3.4" "alice" 50 true
    ⟨"login", Scope.ip, "1.2.3.4", Window.minute⟩
    ⟨"api", Scope.ip, "8.8.8.8", Window.minute⟩ 0 0 le_rfl
    (by intro w; cases w <;> exact ⟨by decide, by decide⟩)
  exact ⟨h.1 Window.minute, h.2.2.2.1⟩

/-- C10: a cache-fallback `count` that prunes at least one stale
timestamp rewrites the key's list with a fixed 300-second lifetime
whatever the key's window, replacing the 2×-window lifetime (120 s
minute, 7200 s hour, 172800 s day) that the record path had stamped. -/
theorem c10_prune_fixed_ttl (s : CacheState) (action ip : String) (t : Nat)
    (k : RLKey) (ws : Int) (x : Nat) (hx : x ∈ s.entries k) (hstale : (x : Int) < ws) :
    (∀ w : Window, (record_ip_request_cache s action ip t).timeout ⟨action, Scope.ip, ip, w⟩
        = some w.recordExpiry) ∧
    Window.recordExpiry Window.minute = 120 ∧
    Window.recordExpiry Window.hour = 7200 ∧
    Window.recordExpiry Window.day = 172800 ∧
    (get_request_count_cacheS s k ws).2.timeout k = some 300 ∧
    (get_request_count_cacheS s k ws).2.entries k = validTimestamps (s.entries k) ws := by
  have hne : (validTimestamps (s.entries k) ws).length ≠ (s.entries k).length := by
    refine length_filter_ne (s.entries k) _ x hx ?_
    exact decide_eq_false (not_le.mpr hstale)
  refine ⟨record_ip_cache_timeout s action ip t, rfl, rfl, rfl, ?_, ?_⟩
  · unfold get_request_count_cacheS
    dsimp only
    rw [if_pos hne]
    simp [Function.update_apply]
  · unfold get_request_count_cacheS
    dsimp only
    rw [if_pos hne]
    simp [Function.update_apply]

/-- C10 witness. -/
theorem c10_witness :
    (record_ip_request_cache ⟨fun _ => [10, 200], fun _ => none⟩ "login" "1.2.3.4" 300).timeout
      ⟨"login", Scope.ip, "1.2.3.4", Window.hour⟩ = some 7200 ∧
    (get_request_count_cacheS ⟨fun _ => [10, 200], fun _ => none⟩
      ⟨"login", Scope.ip, "1.2.3.4", Window.hour⟩ 50).2.timeout
      ⟨"login", Scope.ip, "1.2.3.4", Window.hour⟩ = some 300 := by
  have h := c10_prune_fixed_ttl ⟨fun _ => [10, 200], fun _ => none⟩ "login" "1.2.3.4" 300
    ⟨"login", Scope.ip, "1.2.3.4", Window.hour⟩ 50 10 (by decide) (by decide)
  exact ⟨h.1 Window.hour, h.2.2.2.2.1⟩

end AuthRL
